import Mathlib

/-!
# Verification of the ConversaTrait client-side core

Shallow embedding of the three client-side modules of the ConversaTrait
repository that carry its non-trivial logic:

* `ContentClassifier` (lexical classifier with category/topic/style rule
  tables and an in-memory cache),
* `InterventionManager` (crisis/intervention risk assessment over regex
  pattern families),
* `AppContainer` / `APIService` (session orchestration, HTTP retry policy).

JavaScript regular expressions used by the source are embedded as values of
a small regex AST `RE` together with an executable backtracking matcher.
All the source patterns use the `i` flag (or are case-insensitive anyway),
which is modelled by lowercasing the subject string and writing the
patterns in lowercase.  JavaScript numbers appearing in scores are embedded
as `ℚ`; the single place where the source can divide zero by zero
(`calculateMetrics`) is embedded with an `Option ℚ` result where `none`
models the JavaScript `NaN` produced by `0 / 0`.
-/

namespace ConversaTrait

/-- JavaScript word characters `[A-Za-z0-9_]`, as used by `\b` and `\W`. -/
def isWordChar (c : Char) : Bool :=
  ('a' ≤ c && c ≤ 'z') || ('A' ≤ c && c ≤ 'Z') || ('0' ≤ c && c ≤ '9') || c = '_'

/-- JavaScript whitespace characters relevant to `\s`, `trim` and `split`. -/
def isJsSpace (c : Char) : Bool :=
  c = ' ' || c = '\t' || c = '\n' || c = '\r' || c = '\x0b' || c = '\x0c'

/-- Characters matched by `.` (anything but a newline). -/
def isDotChar (c : Char) : Bool :=
  c ≠ '\n'

/-- Regex AST covering the constructs appearing in the source patterns:
literals, character classes, `+`, `*` on classes, bounded `.{lo,hi}`, `.*`,
word boundaries, sequencing, alternation, `?`, and `(..){n,}`. -/
inductive RE where
  | lit (cs : List Char)
  | cls (p : Char → Bool)
  | clsPlus (p : Char → Bool)
  | clsStar (p : Char → Bool)
  | anyRange (lo hi : Nat)
  | dotStar
  | wb
  | seq (a b : RE)
  | alt (a b : RE)
  | opt (a : RE)
  | repAtLeast (a : RE) (n : Nat)

/-- Matcher state: the character immediately before the current position
(`none` at the start of the subject) and the remaining characters. -/
abbrev MState := Option Char × List Char

/-- Whether an optional character is a word character (out of bounds counts
as non-word, as in JavaScript `\b`). -/
def optIsWord : Option Char → Bool
  | some c => isWordChar c
  | none => false

/-- All ways to consume one or more characters of a class, longest first
(greedy order), tagged with the number of characters consumed. -/
def runSplits (p : Char → Bool) : List Char → List (Nat × MState)
  | [] => []
  | c :: rs =>
    if p c then
      (runSplits p rs).map (fun t => (t.1 + 1, t.2)) ++ [(1, (some c, rs))]
    else []

/-- Iterate a nondeterministic step `n` times (used for `(..){n,}`). -/
def iterN (step : MState → List MState) : Nat → List MState → List MState
  | 0, sts => sts
  | n + 1, sts => iterN step n (sts.flatMap step)

/-- Zero-or-more iterations of a step that must consume input to count as
progress; `fuel` bounds the iteration count by the subject length. -/
def starSteps (step : MState → List MState) : Nat → MState → List MState
  | 0, st => [st]
  | f + 1, st =>
    st :: ((step st).filter (fun st2 => st2.2.length < st.2.length)).flatMap
      (starSteps step f)

/-- Backtracking matcher: all states reachable by matching `r` starting at
the state `(prev, rest)`, listed in the backtracking preference order of a
JavaScript regex engine (greedy quantifiers try longer matches first). -/
def matchList : RE → Option Char → List Char → List MState
  | .lit cs, prev, rest =>
    if cs.isPrefixOf rest then
      [(if cs.isEmpty then prev else some (cs.getLastD ' '), rest.drop cs.length)]
    else []
  | .cls p, _, rest =>
    match rest with
    | [] => []
    | c :: rs => if p c then [(some c, rs)] else []
  | .clsPlus p, _, rest => (runSplits p rest).map (fun t => t.2)
  | .clsStar p, prev, rest => (runSplits p rest).map (fun t => t.2) ++ [(prev, rest)]
  | .anyRange lo hi, prev, rest =>
    ((runSplits isDotChar rest).filter (fun t => lo ≤ t.1 && t.1 ≤ hi)).map
      (fun t => t.2) ++ (if lo = 0 then [(prev, rest)] else [])
  | .dotStar, prev, rest =>
    (runSplits isDotChar rest).map (fun t => t.2) ++ [(prev, rest)]
  | .wb, prev, rest =>
    if optIsWord prev != optIsWord rest.head? then [(prev, rest)] else []
  | .seq a b, prev, rest =>
    (matchList a prev rest).flatMap (fun st => matchList b st.1 st.2)
  | .alt a b, prev, rest => matchList a prev rest ++ matchList b prev rest
  | .opt a, prev, rest => matchList a prev rest ++ [(prev, rest)]
  | .repAtLeast a n, prev, rest =>
    (iterN (fun st => matchList a st.1 st.2) n [(prev, rest)]).flatMap
      (fun st => starSteps (fun st2 => matchList a st2.1 st2.2) (st.2.length + 1) st)

/-- Search for a match of `r` anywhere in the subject, scanning start
positions left to right (JavaScript `RegExp.prototype.test`). -/
def reSearch (r : RE) (prev : Option Char) : List Char → Bool
  | [] => !(matchList r prev []).isEmpty
  | c :: rs => !(matchList r prev (c :: rs)).isEmpty || reSearch r (some c) rs

/-- `pattern.test(s)` for a pattern without the `i` flag. -/
def reTest (r : RE) (s : String) : Bool :=
  reSearch r none s.toList

/-- `pattern.test(content)` for an `i`-flagged pattern: the subject is
lowercased character by character and the patterns themselves are written
in lowercase. -/
def reTestI (r : RE) (content : String) : Bool :=
  reSearch r none (content.toList.map Char.toLower)

/-- Number of matches found by `s.match(pattern)` for a `g`-flagged
pattern: repeatedly take the leftmost match, advancing past it (or by one
character after an empty match). -/
def countFrom (r : RE) : Nat → Option Char → List Char → Nat
  | 0, _, _ => 0
  | f + 1, prev, rest =>
    match (matchList r prev rest).head? with
    | some st =>
      if st.2.length < rest.length then 1 + countFrom r f st.1 st.2
      else
        match rest with
        | [] => 1
        | c :: rs => 1 + countFrom r f (some c) rs
    | none =>
      match rest with
      | [] => 0
      | c :: rs => countFrom r f (some c) rs

/-- Total number of matches of a global pattern in `s`. -/
def countMatches (r : RE) (s : String) : Nat :=
  countFrom r (s.toList.length + 1) none s.toList

/-- Literal pattern from a string. -/
def rlit (s : String) : RE :=
  .lit s.toList

/-- Alternation `(a|b|...)` over a list of patterns (`lit ""` if empty). -/
def ralt (rs : List RE) : RE :=
  match rs with
  | [] => .lit []
  | r :: rest => rest.foldl RE.alt r

/-- Alternation over literal words. -/
def rwords (ws : List String) : RE :=
  ralt (ws.map rlit)

/-- Sequence of a list of patterns. -/
def rseq (rs : List RE) : RE :=
  match rs with
  | [] => .lit []
  | r :: rest => rest.foldl RE.seq r

/-- `\b(w1|w2|...)\b`. -/
def rwb (ws : List String) : RE :=
  rseq [.wb, rwords ws, .wb]

/-- JavaScript `text.includes(sub)`. -/
def listIncludes (sub : List Char) : List Char → Bool
  | [] => sub.isEmpty
  | c :: rs => sub.isPrefixOf (c :: rs) || listIncludes sub rs

/-- JavaScript `text.includes(sub)` on strings. -/
def strIncludes (text sub : String) : Bool :=
  listIncludes sub.toList text.toList

/-- `String.prototype.trim`. -/
def trimChars (l : List Char) : List Char :=
  ((l.dropWhile isJsSpace).reverse.dropWhile isJsSpace).reverse

/-- `replace(/\s+/g, ' ')`: collapse every whitespace run to one space; the
flag records whether the previous emitted character was a space. -/
def collapseGo : Bool → List Char → List Char
  | _, [] => []
  | prevSp, c :: rest =>
    if isJsSpace c then
      if prevSp then collapseGo true rest else ' ' :: collapseGo true rest
    else c :: collapseGo false rest

/-- Split a character list at every character satisfying `p` (JavaScript
`split` on a character class; splitting on each separator character rather
than on runs only adds empty chunks, which every caller filters out). -/
def splitOnPred (p : Char → Bool) : List Char → List (List Char)
  | [] => [[]]
  | c :: rest =>
    if p c then [] :: splitOnPred p rest
    else
      match splitOnPred p rest with
      | [] => [[c]]
      | g :: gs => (c :: g) :: gs

namespace ContentClassifier

/-- One entry of `ContentClassifier.CATEGORIES`. -/
structure CategoryRule where
  name : String
  descriptors : List String
  contextMarkers : List String

/-- One entry of `ContentClassifier.TOPIC_INDICATORS`. -/
structure TopicRule where
  name : String
  keywords : List String
  weight : ℚ

/-- One regex of a style feature, with its `g` (global) flag. -/
structure StylePattern where
  re : RE
  global : Bool

/-- One entry of `ContentClassifier.STYLE_FEATURES`. -/
structure StyleRule where
  name : String
  patterns : List StylePattern
  weight : ℚ

/-- Static category rule table (`ContentClassifier.CATEGORIES`). -/
def CATEGORIES : List CategoryRule :=
  [⟨"PERSONAL",
    ["I feel", "I think", "my experience", "happened to me", "in my life",
     "personally", "my situation"],
    ["my", "me", "mine", "myself", "I am", "I\x27m", "I was", "I\x27ve"]⟩,
   ⟨"RELATIONSHIP",
    ["dating", "marriage", "partner", "boyfriend", "girlfriend", "spouse",
     "relationship", "breakup", "divorce"],
    ["love", "trust", "commitment", "together", "apart", "dating"]⟩,
   ⟨"ETHICAL",
    ["right thing", "wrong thing", "moral", "ethics", "dilemma", "should I",
     "conscience", "guilt", "regret"],
    ["right", "wrong", "fair", "unfair", "justice", "ethical"]⟩,
   ⟨"PROFESSIONAL",
    ["at work", "job", "career", "workplace", "boss", "coworker", "office",
     "professional"],
    ["work", "business", "company", "employee", "manager", "team"]⟩,
   ⟨"MENTAL_HEALTH",
    ["anxiety", "depression", "stress", "therapy", "mental health",
     "counseling", "psychiatrist", "psychologist"],
    ["feel", "cope", "struggle", "overwhelmed", "worried", "scared"]⟩,
   ⟨"CONFLICT",
    ["argument", "fight", "disagreement", "conflict", "dispute", "tension",
     "resolution", "compromise"],
    ["angry", "upset", "frustrated", "resolve", "solve", "deal with"]⟩]

/-- Static topic rule table (`ContentClassifier.TOPIC_INDICATORS`). -/
def TOPIC_INDICATORS : List TopicRule :=
  [⟨"SUPPORT_SEEKING",
    ["help", "advice", "guidance", "what should", "need help", "please help",
     "suggestions"], 1.5⟩,
   ⟨"VENTING",
    ["rant", "frustrated", "annoyed", "tired of", "sick of", "had enough",
     "cant take"], 1.2⟩,
   ⟨"DECISION_MAKING",
    ["decide", "choice", "option", "should I", "what if", "wondering",
     "considering"], 1.3⟩,
   ⟨"REFLECTION",
    ["thinking about", "realized", "understand", "perspective", "looking back",
     "reflection"], 1.1⟩]

/-- Static style rule table (`ContentClassifier.STYLE_FEATURES`). -/
def STYLE_FEATURES : List StyleRule :=
  [⟨"FORMAL",
    [⟨rlit "therefore", false⟩, ⟨rlit "however", false⟩,
     ⟨rlit "furthermore", false⟩, ⟨rlit "nevertheless", false⟩,
     ⟨rlit "regarding", false⟩, ⟨rlit "consequently", false⟩], 0.8⟩,
   ⟨"CASUAL",
    [⟨rlit "lol", false⟩, ⟨rlit "tbh", false⟩, ⟨rlit "idk", false⟩,
     ⟨rlit "imo", false⟩, ⟨rlit "fyi", false⟩, ⟨rlit "btw", false⟩], 1.2⟩,
   ⟨"EMOTIONAL",
    [⟨rseq [rlit "!", .clsPlus (fun c => c = '!')], true⟩,
     ⟨rseq [rlit "?", .clsPlus (fun c => c = '!')], true⟩,
     ⟨rseq [rlit "??", .clsStar (fun c => c = '?')], true⟩,
     ⟨.repAtLeast (rseq [.wb, rwords ["very", "really", "so", "totally"], .wb,
        .dotStar]) 2, true⟩], 1.4⟩,
   ⟨"ANALYTICAL",
    [⟨rseq [rlit "first", .dotStar, rlit "second", .dotStar, rlit "third"],
       false⟩,
     ⟨rwb ["analyze", "conclude", "evidence", "reason"], true⟩,
     ⟨rwb ["compare", "contrast", "examine"], true⟩], 0.9⟩]

/-- `normalizeText`: trim, collapse internal whitespace, lowercase. -/
def normalizeText (text : String) : String :=
  String.mk ((collapseGo false (trimChars text.toList)).map Char.toLower)

/-- `splitSentences`: split on `[.!?]+`, trim, drop empties. -/
def splitSentences (text : String) : List String :=
  (((splitOnPred (fun c => c = '.' || c = '!' || c = '?') text.toList).map
    trimChars).filter (fun g => !g.isEmpty)).map String.mk

/-- `tokenize`: split on `\W+`, drop empties. -/
def tokenize (text : String) : List String :=
  (((splitOnPred (fun c => !isWordChar c) text.toList)).filter
    (fun g => !g.isEmpty)).map String.mk

/-- Per-category result of `detectCategories`: score plus matched phrases. -/
structure CatScore where
  score : ℚ
  descriptorMatches : List String
  contextMatches : List String
  deriving DecidableEq, Repr

/-- `detectCategories`: a phrase matches iff it is a literal substring of
the normalized text; score is the weighted sum of match fractions. -/
def detectCategories (text : String) : List (String × CatScore) :=
  CATEGORIES.map (fun c =>
    let descriptorMatches := c.descriptors.filter
      (fun d => listIncludes (d.toList.map Char.toLower) text.toList)
    let contextMatches := c.contextMarkers.filter
      (fun m => listIncludes (m.toList.map Char.toLower) text.toList)
    (c.name,
     ⟨(descriptorMatches.length : ℚ) / (c.descriptors.length : ℚ) * 0.6 +
        (contextMatches.length : ℚ) / (c.contextMarkers.length : ℚ) * 0.4,
      descriptorMatches, contextMatches⟩))

/-- Per-topic result of `analyzeTopics`. -/
structure TopicScore where
  score : ℚ
  matched : List String
  deriving DecidableEq, Repr

/-- `analyzeTopics`: matched-keyword fraction times the topic weight (note:
no clamping is applied here in the source). -/
def analyzeTopics (text : String) : List (String × TopicScore) :=
  TOPIC_INDICATORS.map (fun t =>
    let matched := t.keywords.filter
      (fun k => listIncludes (k.toList.map Char.toLower) text.toList)
    (t.name, ⟨(matched.length : ℚ) / (t.keywords.length : ℚ) * t.weight,
      matched⟩))

/-- Per-style result of `analyzeStyle`. -/
structure StyleScore where
  score : ℚ
  matched : Nat
  deriving DecidableEq, Repr

/-- Count contributed by one style pattern: number of global matches for a
`g` pattern, else the length of the singleton `text.match` array (none of
the non-global style patterns has capture groups). -/
def stylePatternCount (sp : StylePattern) (text : String) : Nat :=
  if sp.global then countMatches sp.re text
  else if reTest sp.re text then 1 else 0

/-- `analyzeStyle`: sum of match counts times weight, divided by 10 and
clamped to `[0, 1]`. -/
def analyzeStyle (text : String) : List (String × StyleScore) :=
  STYLE_FEATURES.map (fun f =>
    let total : Nat := (f.patterns.map (fun p => stylePatternCount p text)).sum
    (f.name, ⟨min ((total : ℚ) * f.weight / 10) 1, total⟩))

/-- Text metrics (`calculateMetrics`).  The two averages are `Option ℚ`:
`none` embeds the non-finite JavaScript number (`NaN` from `0 / 0`)
produced when the corresponding denominator is zero. -/
structure Metrics where
  wordCount : Nat
  sentenceCount : Nat
  averageWordLength : Option ℚ
  averageSentenceLength : Option ℚ
  deriving DecidableEq, Repr

/-- JavaScript division as it occurs in `calculateMetrics`: `none` models
the non-finite result of dividing by zero. -/
def jsDiv (a b : ℚ) : Option ℚ :=
  if b = 0 then none else some (a / b)

/-- `calculateMetrics`, with unguarded divisions embedded via `jsDiv`. -/
def calculateMetrics (words sentences : List String) : Metrics :=
  { wordCount := words.length
    sentenceCount := sentences.length
    averageWordLength :=
      jsDiv ((words.map (fun w => (w.toList.length : ℚ))).sum)
        (words.length : ℚ)
    averageSentenceLength :=
      jsDiv (words.length : ℚ) (sentences.length : ℚ) }

/-- `getRelevantTopics`: fixed category-to-topic relevance map. -/
def getRelevantTopics (category : String) : List String :=
  if category = "PERSONAL" then ["SUPPORT_SEEKING", "VENTING", "REFLECTION"]
  else if category = "RELATIONSHIP" then
    ["DECISION_MAKING", "VENTING", "REFLECTION"]
  else if category = "ETHICAL" then ["DECISION_MAKING", "REFLECTION"]
  else if category = "PROFESSIONAL" then ["DECISION_MAKING", "SUPPORT_SEEKING"]
  else if category = "MENTAL_HEALTH" then
    ["SUPPORT_SEEKING", "VENTING", "REFLECTION"]
  else if category = "CONFLICT" then
    ["SUPPORT_SEEKING", "VENTING", "DECISION_MAKING"]
  else []

/-- `getRelevantStyles`: fixed category-to-style relevance map (the
`REFLECTION` entry for `MENTAL_HEALTH` names a topic, not a style, and is
skipped at use just as `style[styleName]` is `undefined` in the source). -/
def getRelevantStyles (category : String) : List String :=
  if category = "PERSONAL" then ["CASUAL", "EMOTIONAL"]
  else if category = "RELATIONSHIP" then ["EMOTIONAL", "CASUAL"]
  else if category = "ETHICAL" then ["FORMAL", "ANALYTICAL"]
  else if category = "PROFESSIONAL" then ["FORMAL", "ANALYTICAL"]
  else if category = "MENTAL_HEALTH" then ["EMOTIONAL", "REFLECTION"]
  else if category = "CONFLICT" then ["EMOTIONAL", "CASUAL"]
  else []

/-- `calculateConfidence`: multiply each category score by topic and style
boosts and clamp to 1. -/
def calculateConfidence (categories : List (String × CatScore))
    (topics : List (String × TopicScore))
    (style : List (String × StyleScore)) : List (String × ℚ) :=
  categories.map (fun p =>
    let s1 := (getRelevantTopics p.1).foldl (fun acc tn =>
      match topics.lookup tn with
      | some t => acc * (1 + t.score * 0.2)
      | none => acc) p.2.score
    let s2 := (getRelevantStyles p.1).foldl (fun acc sn =>
      match style.lookup sn with
      | some st => acc * (1 + st.score * 0.1)
      | none => acc) s1
    (p.1, min s2 1))

/-- Classification result (`results` object built by `classifyContent`). -/
structure ClassificationResult where
  primaryCategory : String
  primaryConfidence : ℚ
  secondary : List (String × ℚ)
  topics : List (String × TopicScore)
  style : List (String × StyleScore)
  metrics : Metrics
  timestamp : Nat
  deriving DecidableEq, Repr

/-- The classification computed by `classifyContent` on a cache miss;
`now` is the `Date.now()` timestamp of the call. -/
def computeClassification (text : String) (now : Nat) : ClassificationResult :=
  let normalizedText := normalizeText text
  let sentences := splitSentences normalizedText
  let words := tokenize normalizedText
  let categories := detectCategories normalizedText
  let topics := analyzeTopics normalizedText
  let style := analyzeStyle normalizedText
  let metrics := calculateMetrics words sentences
  let confidenceScores := calculateConfidence categories topics style
  let sorted := categories.mergeSort (fun a b => decide (b.2.score ≤ a.2.score))
  let primary := sorted.headD ("", ⟨0, [], []⟩)
  { primaryCategory := primary.1
    primaryConfidence := (confidenceScores.lookup primary.1).getD 0
    secondary := ((sorted.drop 1).take 2).map
      (fun p => (p.1, (confidenceScores.lookup p.1).getD 0))
    topics := topics
    style := style
    metrics := metrics
    timestamp := now }

/-- The classifier's mutable state: the `this.cache` map, embedded as an
association list from cache key to cached result. -/
structure ClassifierState where
  cache : List (String × ClassificationResult)
  deriving DecidableEq

/-- A classifier as just constructed (empty cache). -/
def emptyClassifier : ClassifierState :=
  ⟨[]⟩

/-- `getCacheKey`: first 100 characters of the text plus the serialized
options (`options` is embedded by its `JSON.stringify` serialization, the
only way `classifyContent` ever uses it). -/
def getCacheKey (text options : String) : String :=
  String.mk (text.toList.take 100) ++ "_" ++ options

/-- `classifyContent`: return the cached result when the key is present,
otherwise compute, cache and return a fresh result. -/
def classifyContent (st : ClassifierState) (text options : String)
    (now : Nat) : ClassificationResult × ClassifierState :=
  let key := getCacheKey text options
  match st.cache.lookup key with
  | some r => (r, st)
  | none =>
    let results := computeClassification text now
    (results, ⟨(key, results) :: st.cache⟩)

/-- `clearCache`. -/
def clearCache (_st : ClassifierState) : ClassifierState :=
  ⟨[]⟩

end ContentClassifier

namespace InterventionManager

/-- `contextExclusions.medicalDiscussion`. -/
def medicalDiscussionPatterns : List RE :=
  [rwb ["doctor", "doctors", "medical", "medicine", "treatment", "therapy",
     "hospital", "clinic"],
   rwb ["medication", "pills", "prescription", "dosage", "side effects",
     "reactions"],
   rwb ["surgery", "operation", "procedure", "recovery", "healing"],
   rwb ["cancer", "heart failure", "disease", "illness", "condition",
     "diagnosis"]]

/-- `contextExclusions.thirdPersonDiscussion`. -/
def thirdPersonDiscussionPatterns : List RE :=
  [rseq [.wb,
     .alt (rseq [rlit "my ", rwords ["friend", "dad", "mom", "father",
        "mother", "brother", "sister", "family"]])
       (rwords ["he", "she", "they", "them", "his", "her", "their"]),
     .wb, .anyRange 0 50, .wb,
     rwords ["died", "passed", "lost", "battle", "fighting"], .wb],
   rseq [.wb, rwords ["friend", "relative", "family member", "loved one"],
     .wb, .anyRange 0 50, .wb, rwords ["cancer", "illness", "disease"], .wb],
   rseq [.wb, rlit "talking about ",
     rwords ["my", "our", "someone", "a friend"], .wb]]

/-- `contextExclusions.pastEvents`. -/
def pastEventsPatterns : List RE :=
  [rwb ["last year", "months ago", "years ago", "previously", "in the past",
     "used to"],
   rseq [.wb, rwords ["car accident", "accident", "crash"], .wb,
     .anyRange 0 50, .wb, rwords ["happened", "occurred", "was in"], .wb],
   rseq [.wb, rlit "had ", rwords ["surgery", "an accident", "been through"],
     .wb]]

/-- `contextExclusions.educationalContext`. -/
def educationalContextPatterns : List RE :=
  [rwb ["discussing", "talking about", "conversation about", "sharing",
     "information about"],
   rwb ["awareness", "education", "helping others", "support", "resources"]]

/-- The `contextExclusions` table of `checkCrisisIndicators`. -/
def contextExclusions : List (String × List RE) :=
  [("medicalDiscussion", medicalDiscussionPatterns),
   ("thirdPersonDiscussion", thirdPersonDiscussionPatterns),
   ("pastEvents", pastEventsPatterns),
   ("educationalContext", educationalContextPatterns)]

/-- `crisisPatterns.trolling`. -/
def trollingPatterns : List RE :=
  [rwb ["just trolling", "not serious", "kidding", "joking"],
   rwb ["you mad", "triggered", "lolol", "baited"],
   rwb ["spam", "nonsense", "irrelevant", "off-topic"]]

/-- `crisisPatterns.activeSuicideIntent`. -/
def activeSuicideIntentPatterns : List RE :=
  [rseq [.wb, rlit "i ", rwords ["want to", "am going to", "plan to", "will"],
     rlit " ", rwords ["kill myself", "end my life", "commit suicide"], .wb],
   rseq [.wb, rlit "i ", rwords ["can\x27t", "cannot"], rlit " ",
     rwords ["go on", "live", "take it"], rlit " anymore", .wb],
   rseq [.wb, rlit "i ", rwords ["have a plan", "am planning"], rlit " to ",
     rwords ["kill myself", "end it", "suicide"], .wb],
   rseq [.wb, rlit "i ", rwords ["don\x27t want to", "want to stop"],
     rlit " ", rwords ["living", "being alive"], .wb]]

/-- `crisisPatterns.activeSelfHarmIntent`. -/
def activeSelfHarmIntentPatterns : List RE :=
  [rseq [.wb, rlit "i ", rwords ["want to", "am going to", "plan to"],
     rlit " ", rwords ["cut", "hurt", "harm"], rlit " myself", .wb],
   rseq [.wb, rlit "i ", rwords ["have", "am getting", "bought"], rlit " ",
     rwords ["razor", "blade", "knife"], rlit " to ", rwords ["cut", "hurt"],
     rlit " myself", .wb],
   rseq [.wb, rlit "i am ", rwords ["cutting", "hurting", "harming"],
     rlit " myself", .wb]]

/-- `crisisPatterns.activeOverdoseIntent`. -/
def activeOverdoseIntentPatterns : List RE :=
  [rseq [.wb, rlit "i ", rwords ["want to", "am going to", "plan to"],
     rlit " ", rwords ["overdose", "take all", "swallow all"], .wb],
   rseq [.wb, rlit "i ", rwords ["have", "collected", "am taking"], rlit " ",
     rwords ["pills", "medication"], rlit " to ",
     rwords ["overdose", "kill myself", "die"], .wb]]

/-- `crisisPatterns.directViolentThreats`. -/
def directViolentThreatsPatterns : List RE :=
  [rseq [.wb, rlit "i ", rwords ["will", "am going to", "plan to"], rlit " ",
     rwords ["kill", "murder", "shoot", "stab", "hurt"], rlit " ",
     rwords ["you", "him", "her", "them"], .wb],
   rseq [.wb, rlit "i ", rwords ["have", "got", "am getting"], rlit " ",
     rwords ["gun", "weapon", "knife"], rlit " to ",
     rwords ["kill", "hurt", "attack"], .wb],
   rseq [.wb, rlit "i am ", rwords ["planning", "preparing"], rlit " ",
     rwords ["attack", "violence", "shooting"], .wb]]

/-- `crisisPatterns.illegalContent`. -/
def illegalContentPatterns : List RE :=
  [rseq [.wb, rwords ["child", "kid", "minor", "underage", "teen"], .wb,
     .anyRange 0 50, .wb, rwords ["sex", "porn", "nude", "naked"], .wb],
   rseq [.wb, rwords ["traffic", "traffick", "selling", "sold"], .wb,
     .anyRange 0 30, .wb, rwords ["girls", "women", "kids", "children"], .wb],
   rseq [.wb,
     ralt [rlit "forced", rseq [rlit "against", .anyRange 0 10, rlit "will"],
       rlit "kidnap"],
     .wb, .anyRange 0 30, .wb, rwords ["sex", "rape"], .wb]]

/-- The `crisisPatterns` table of `checkCrisisIndicators`, in source order
with the source's category names. -/
def crisisPatterns : List (String × List RE) :=
  [("trolling", trollingPatterns),
   ("activeSuicideIntent", activeSuicideIntentPatterns),
   ("activeSelfHarmIntent", activeSelfHarmIntentPatterns),
   ("activeOverdoseIntent", activeOverdoseIntentPatterns),
   ("directViolentThreats", directViolentThreatsPatterns),
   ("illegalContent", illegalContentPatterns)]

/-- `getSeverityForCategory`: the severity map keyed by `trolling`,
`suicide`, `selfHarm`, `overdoseIntent`, `violentThreats`, `illegalContent`,
with default `0.5` for any other category name. -/
def getSeverityForCategory (category : String) : ℚ :=
  if category = "trolling" then 0.7
  else if category = "suicide" then 1.0
  else if category = "selfHarm" then 0.9
  else if category = "overdoseIntent" then 1.0
  else if category = "violentThreats" then 1.0
  else if category = "illegalContent" then 1.0
  else 0.5

/-- A crisis trigger record.  The source also stores the pattern text and
matched substring, which are diagnostic only and omitted here; the
`customMessage` trigger pushed for trolling carries only a message in the
source and is embedded with severity `0` and empty confidence. -/
structure Trigger where
  type : String
  severity : ℚ
  confidence : String
  deriving DecidableEq, Repr

/-- Result of `checkCrisisIndicators` (the `debugInfo` list is omitted). -/
structure CrisisResult where
  detected : Bool
  triggers : List Trigger
  deriving Repr

/-- The `hasExcludingContext` flag: some context-exclusion pattern matched. -/
def hasExcludingContext (content : String) : Bool :=
  contextExclusions.any (fun fam => fam.2.any (fun p => reTestI p content))

/-- `checkCrisisIndicators`: a crisis pattern match triggers iff there is
no excluding context or its category severity reaches the raised 0.9
threshold. -/
def checkCrisisIndicators (content : String) : CrisisResult :=
  let hasExcl := hasExcludingContext content
  let severityThreshold : ℚ := if hasExcl then 0.9 else 0.7
  let triggers := crisisPatterns.flatMap (fun fam =>
    fam.2.filterMap (fun p =>
      if reTestI p content then
        let severity := getSeverityForCategory fam.1
        if !hasExcl || decide (severityThreshold ≤ severity) then
          some ⟨fam.1, severity, if hasExcl then "low" else "high"⟩
        else none
      else none))
  let detected := !triggers.isEmpty
  if triggers.any (fun t => t.type = "trolling") then
    ⟨detected, triggers ++ [⟨"customMessage", 0, ""⟩]⟩
  else ⟨detected, triggers⟩

/-- `concernPatterns.depression`. -/
def depressionPatterns : List RE :=
  [rwb ["depressed", "hopeless", "worthless", "useless"],
   rseq [.wb,
     .alt (rseq [rlit "no", .opt (rlit "thing"), .clsPlus isJsSpace,
        rlit "matters"]) (rlit "pointless"), .wb],
   rseq [.wb, rwords ["cant", "can\x27t", "cannot"], .wb, .anyRange 0 20,
     .wb, rwords ["cope", "handle", "go on"], .wb],
   rseq [.wb,
     .alt (rseq [rlit "hate", .anyRange 0 10, rlit "myself"])
       (rseq [rlit "hate", .anyRange 0 10, rlit "life"]), .wb]]

/-- `concernPatterns.anxiety`. -/
def anxietyPatterns : List RE :=
  [rwb ["panic attack", "anxiety attack"],
   rseq [.wb, .alt (rseq [rlit "constant", .opt (rlit "ly")]) (rlit "always"),
     .wb, .anyRange 0 20, .wb,
     rwords ["worry", "anxious", "fear", "terrified"], .wb],
   rseq [.wb,
     .alt (rseq [rlit "cant", .anyRange 0 10, rlit "breathe"])
       (rlit "hyperventilat"), .wb]]

/-- `concernPatterns.isolation`. -/
def isolationPatterns : List RE :=
  [rwb ["completely alone", "nobody cares", "no one understands"],
   rseq [.wb,
     .alt (rlit "no") (rseq [rlit "don\x27t", .clsPlus isJsSpace,
        rlit "have"]),
     .anyRange 0 20, .wb, rwords ["friends", "family", "support", "anyone"],
     .wb],
   rwb ["isolated", "cut off", "abandoned"]]

/-- The `concernPatterns` table of `analyzeContent`. -/
def concernPatterns : List (String × List RE) :=
  [("depression", depressionPatterns),
   ("anxiety", anxietyPatterns),
   ("isolation", isolationPatterns)]

/-- A concern record; severity is the fraction of the family's patterns
that matched (the list of matched substrings is diagnostic and omitted). -/
structure Concern where
  type : String
  severity : ℚ
  deriving DecidableEq, Repr

/-- Result of `analyzeContent` (its `triggers` list is never pushed to in
the source and stays empty). -/
structure Analysis where
  triggers : List Trigger
  concerns : List Concern
  severity : ℚ
  deriving Repr

/-- `analyzeContent`: concern families with at least one pattern match;
overall severity is the mean of the matched families' severities. -/
def analyzeContent (content : String) : Analysis :=
  let concerns := concernPatterns.filterMap (fun fam =>
    let m := (fam.2.filter (fun p => reTestI p content)).length
    if 0 < m then some (⟨fam.1, (m : ℚ) / (fam.2.length : ℚ)⟩ : Concern)
    else none)
  let severity : ℚ :=
    if 0 < concerns.length then
      ((concerns.map (fun c => c.severity)).sum) / (concerns.length : ℚ)
    else 0
  ⟨[], concerns, severity⟩

/-- `determineRiskLevel`: threshold mapping of the analysis severity. -/
def determineRiskLevel (analysis : Analysis) : String :=
  if (0.8 : ℚ) ≤ analysis.severity then "HIGH"
  else if (0.6 : ℚ) ≤ analysis.severity then "MEDIUM"
  else if (0.3 : ℚ) ≤ analysis.severity then "LOW"
  else "NONE"

/-- `RISK_LEVELS[level].requiresAction`: true exactly for HIGH and CRISIS. -/
def requiresAction (riskLevel : String) : Bool :=
  riskLevel = "HIGH" || riskLevel = "CRISIS"

/-- An assessment record (content, context, timestamps, resources and debug
info omitted; the fields below are the ones the risk logic writes). -/
structure Assessment where
  riskLevel : String
  triggers : List Trigger
  concerns : List Concern
  requiresIntervention : Bool
  deriving Repr

/-- `assessContent`: crisis check first; on detection the risk level is
CRISIS with mandatory intervention and phase 2 is skipped, otherwise the
concern analysis determines the risk level. -/
def assessContent (content : String) : Assessment :=
  let crisisCheck := checkCrisisIndicators content
  if crisisCheck.detected then
    { riskLevel := "CRISIS"
      triggers := crisisCheck.triggers
      concerns := []
      requiresIntervention := true }
  else
    let analysis := analyzeContent content
    let riskLevel := determineRiskLevel analysis
    { riskLevel := riskLevel
      triggers := analysis.triggers
      concerns := analysis.concerns
      requiresIntervention := requiresAction riskLevel }

end InterventionManager

/-- `APIError`: message plus optional HTTP status (`none` embeds a `null`
status; network failures are constructed with status `0` in the source). -/
structure APIError where
  message : String
  status : Option Nat
  deriving DecidableEq, Repr

/-- `APIError.isRetryable`: 4xx only for 408/429; otherwise 5xx and falsy
status (`null`/`undefined`/`0`, i.e. network errors) are retryable. -/
def APIError.isRetryable (e : APIError) : Bool :=
  match e.status with
  | some s =>
    if 400 ≤ s && s < 500 then s == 408 || s == 429
    else decide (500 ≤ s) || s == 0
  | none => true

namespace APIService

/-- Outcome of one `makeRequest` attempt (every failure surfaces as an
`APIError`: `makeRequest` wraps aborts as status 408 and network failures
as status 0). -/
inductive ReqOutcome where
  | ok (response : String)
  | err (e : APIError)
  deriving DecidableEq, Repr

/-- The `while (attempt < maxAttempts)` loop of `APIService.request`,
parameterized by the outcome of each attempt.  Returns the settled value
(`none` embeds the `undefined` return after an exhausted loop, unreachable
for positive `maxAttempts`) together with the list of backoff delays slept
before retries, in order. -/
def requestLoop (outcomes : Nat → ReqOutcome) (retryDelay maxAttempts
    attempt : Nat) : Option (Except APIError String) × List Nat :=
  if _h : attempt < maxAttempts then
    match outcomes attempt with
    | .ok v => (some (.ok v), [])
    | .err e =>
      let nextAttempt := attempt + 1
      if !(e.isRetryable) then (some (.error e), [])
      else if maxAttempts ≤ nextAttempt then (some (.error e), [])
      else
        let delay := retryDelay * 2 ^ (nextAttempt - 1)
        let r1 := requestLoop outcomes retryDelay maxAttempts nextAttempt
        (r1.1, delay :: r1.2)
  else (none, [])
termination_by maxAttempts - attempt
decreasing_by omega

/-- `APIService.request` with the constructor defaults
`retryDelay = 1000`, `retryAttempts = 3` (the non-queued path taken by
every caller in the repository). -/
def request (outcomes : Nat → ReqOutcome) :
    Option (Except APIError String) × List Nat :=
  requestLoop outcomes 1000 3 0

/-- `APIService.validateApiKey`: a single raw `fetch` (no retry loop); a
non-2xx response is wrapped in an `APIError` with that status and a network
failure in an `APIError` with status 0.  `response` is `some (status,
message)` for a received HTTP response and `none` for a network failure. -/
def validateApiKey (response : Option (Nat × String)) : Except APIError String :=
  match response with
  | some st =>
    if 200 ≤ st.1 && st.1 < 300 then .ok st.2
    else .error ⟨st.2, some st.1⟩
  | none => .error ⟨"Network request failed during real validation", some 0⟩

/-- The APIService callback registries (`progressCallbacks` and
`analysisCallbacks`), embedded as the lists of session ids that currently
hold a registered callback. -/
structure APIServiceState where
  progressCallbacks : List String
  analysisCallbacks : List String
  deriving DecidableEq, Repr

/-- `analyzeWithProgress` on a `started` response: register the progress
and completion callbacks for the new session. -/
def registerSessionCallbacks (api : APIServiceState) (sessionId : String) :
    APIServiceState :=
  ⟨sessionId :: api.progressCallbacks, sessionId :: api.analysisCallbacks⟩

/-- The APIService socket handler for `analysis_complete` /
`analysis_error`: when a callback is registered for the event's session id,
invoke it (which only settles an already-settled promise) and delete both
registry entries for that id; otherwise do nothing. -/
def removeCallbacks (api : APIServiceState) (sessionId : String) :
    APIServiceState :=
  if sessionId ∈ api.analysisCallbacks then
    ⟨api.progressCallbacks.filter (fun s => s ≠ sessionId),
     api.analysisCallbacks.filter (fun s => s ≠ sessionId)⟩
  else api

end APIService

namespace AppContainer

/-- A value stored in the `analysisResults` state: either backend results
or the `{error: true, message, details}` object built on failure paths. -/
inductive AnalysisOutcome where
  | results (payload : String)
  | errorResult (message details : String)
  deriving DecidableEq, Repr

/-- The React state of `AppContainer` that the analysis flow touches. -/
structure AppState where
  analysisResults : Option AnalysisOutcome
  isAnalyzing : Bool
  progress : Nat
  statusMessage : String
  currentSessionId : Option String
  analysisTimeoutId : Option Nat
  deriving DecidableEq, Repr

/-- The initial (idle) state of the component. -/
def initialAppState : AppState :=
  ⟨none, false, 0, "", none, none⟩

/-- The 150-second `setTimeout` armed by `handleAnalyze`.  Its callback
reads the `isAnalyzing` binding of the render that created `handleAnalyze`
— the value current when the analysis was submitted — not the live React
state, so that captured value is part of the timer. -/
structure PendingTimeout where
  id : Nat
  capturedIsAnalyzing : Bool
  deriving DecidableEq, Repr

/-- The synchronous prefix of `handleAnalyze`: clear any previous timeout,
reset the analysis state, arm the 150 s timer (whose callback captures the
pre-submission `isAnalyzing`). -/
def handleAnalyzeStart (s : AppState) (timerId : Nat) :
    AppState × PendingTimeout :=
  ({ s with
      analysisResults := none
      isAnalyzing := true
      progress := 0
      statusMessage := "Initiating analysis..."
      currentSessionId := none
      analysisTimeoutId := some timerId },
   ⟨timerId, s.isAnalyzing⟩)

/-- `handleAnalyze` when the initial response carries a `session_id`: the
session id is recorded and the timer left running. -/
def handleStartedResponse (s : AppState) (sessionId : String) : AppState :=
  { s with currentSessionId := some sessionId }

/-- The 150 s timer callback: it synthesizes the timeout error result only
if its captured `isAnalyzing` binding is true.  It does not clear
`analysisTimeoutId` and does not touch the APIService registries. -/
def fireAnalysisTimeout (s : AppState) (t : PendingTimeout) : AppState :=
  if t.capturedIsAnalyzing then
    { s with
        analysisResults := some (.errorResult
          "Analysis timed out. The server did not respond in time."
          "The analysis did not complete within the 150-second time limit.")
        isAnalyzing := false }
  else s

/-- The `handleAnalysisComplete` socket listener (attached only while a
session id is tracked): on a session-id match, clear the timeout, store the
results and finish; otherwise ignore the event. -/
def handleAnalysisComplete (s : AppState) (eventSessionId results : String) :
    AppState :=
  match s.currentSessionId with
  | some sid =>
    if eventSessionId = sid then
      { s with
          analysisTimeoutId := none
          analysisResults := some (.results results)
          isAnalyzing := false
          progress := 100
          statusMessage := "Analysis complete!" }
    else s
  | none => s

/-- The `handleAnalysisError` socket listener, same session-id filter. -/
def handleAnalysisError (s : AppState) (eventSessionId message details :
    String) : AppState :=
  match s.currentSessionId with
  | some sid =>
    if eventSessionId = sid then
      { s with
          analysisTimeoutId := none
          analysisResults := some (.errorResult message details)
          isAnalyzing := false }
    else s
  | none => s

/-- Combined orchestrator state: the component state plus the APIService
callback registries (the process-wide singletons the spec points at). -/
structure SystemState where
  app : AppState
  api : APIService.APIServiceState
  deriving DecidableEq, Repr

/-- Submitting an analysis that starts asynchronously: `handleAnalyze`
resets state and arms the timer, `analyzeWithProgress` registers the
session callbacks, and the started response records the session id. -/
def submitAnalysis (sys : SystemState) (timerId : Nat) (sessionId : String) :
    SystemState × PendingTimeout :=
  let st := handleAnalyzeStart sys.app timerId
  ({ app := handleStartedResponse st.1 sessionId
     api := APIService.registerSessionCallbacks sys.api sessionId }, st.2)

/-- The 150 s timer firing on the combined state. -/
def timeoutFires (sys : SystemState) (t : PendingTimeout) : SystemState :=
  { sys with app := fireAnalysisTimeout sys.app t }

/-- Delivery of an `analysis_complete` event: both the APIService handler
(callback invocation and deregistration for the event's session) and the
AppContainer listener run. -/
def deliverComplete (sys : SystemState) (eventSessionId results : String) :
    SystemState :=
  { app := handleAnalysisComplete sys.app eventSessionId results
    api := APIService.removeCallbacks sys.api eventSessionId }

/-- Delivery of an `analysis_error` event. -/
def deliverError (sys : SystemState) (eventSessionId message details :
    String) : SystemState :=
  { app := handleAnalysisError sys.app eventSessionId message details
    api := APIService.removeCallbacks sys.api eventSessionId }

end AppContainer

/-! Concrete inputs used by witnesses, counterexamples and code-bug
evaluations. -/

/-- A first-person suicidal-intent phrase inside a medical context, so a
crisis pattern and a context-exclusion pattern both match. -/
def c1text : String :=
  "I want to kill myself. I talked to my doctor."

/-- A first-person suicidal-intent phrase with no excluding context. -/
def c2text : String :=
  "I want to kill myself"

/-- A text matching all seven `SUPPORT_SEEKING` keywords. -/
def c4text : String :=
  "help advice guidance what should need help please help suggestions"

/-- The first entry of `detectCategories ""`. -/
def c4pair : String × ContentClassifier.CatScore :=
  ("PERSONAL", ⟨0, [], []⟩)

/-- The end-to-end depression-scenario input from the specification. -/
def c5text : String :=
  "I feel so hopeless and worthless, nothing matters anymore"

/-- A 101-character text. -/
def tLong1 : String :=
  String.mk (List.replicate 100 'a' ++ ['b'])

/-- A different 101-character text sharing its first 100 characters with
`tLong1`. -/
def tLong2 : String :=
  String.mk (List.replicate 100 'a' ++ ['c'])

/-- An analysis submitted from the idle state whose backend session starts
asynchronously and then never emits a completion or error event. -/
def c3submission : AppContainer.SystemState × AppContainer.PendingTimeout :=
  AppContainer.submitAnalysis ⟨AppContainer.initialAppState, ⟨[], []⟩⟩ 7
    "sess-1"

/-- An orchestrator mid-analysis, tracking session `sess-a`. -/
def c6sys : AppContainer.SystemState :=
  ⟨⟨none, true, 40, "Analyzing...", some "sess-a", some 3⟩,
   ⟨["sess-a"], ["sess-a"]⟩⟩

/-- Attempt outcomes where the backend always answers 404. -/
def out404 : Nat → APIService.ReqOutcome :=
  fun _ => .err ⟨"HTTP 404", some 404⟩

/-- Attempt outcomes where the backend always answers 500. -/
def out500 : Nat → APIService.ReqOutcome :=
  fun _ => .err ⟨"HTTP 500", some 500⟩

end ConversaTrait

attribute [local semireducible] Rat.ofScientific Rat.mul Rat.inv Rat.add
  Rat.sub

namespace ConversaTrait

/-! Helper lemmas shared by several claim proofs. -/

/-- A `filterMap` that keeps an item for every `f`-positive element is
non-empty when some element is `f`-positive. -/
theorem filterMap_if_ne_nil {α β : Type} (f : α → Bool) (g : α → β)
    (ps : List α) (h : ps.any f = true) :
    ps.filterMap (fun p => if f p then some (g p) else none) ≠ [] := by
  induction ps with
  | nil => simp at h
  | cons a as ih =>
    rw [List.any_cons] at h
    by_cases hf : f a = true
    · simp [List.filterMap_cons, hf]
    · have hb : f a = false := by simpa using hf
      have hs : as.any f = true := by simpa [hb] using h
      simpa [List.filterMap_cons, hb] using ih hs

/-- If some pattern of a crisis family matches and no context exclusion
matches, `checkCrisisIndicators` reports a detection. -/
theorem crisis_detected_of_family_match (content cat : String) (ps : List RE)
    (hmem : (cat, ps) ∈ InterventionManager.crisisPatterns)
    (hmatch : ps.any (fun p => reTestI p content) = true)
    (hctx : InterventionManager.hasExcludingContext content = false) :
    (InterventionManager.checkCrisisIndicators content).detected = true := by
  unfold InterventionManager.checkCrisisIndicators
  rw [hctx]
  simp only [Bool.not_false, Bool.true_or, if_true, apply_ite
    InterventionManager.CrisisResult.detected, ite_self]
  have hne : InterventionManager.crisisPatterns.flatMap
      (fun fam => fam.2.filterMap (fun p =>
        if reTestI p content then
          some (⟨fam.1, InterventionManager.getSeverityForCategory fam.1,
            "high"⟩ : InterventionManager.Trigger)
        else none)) ≠ [] := by
    obtain ⟨b, hb⟩ := List.exists_mem_of_ne_nil _
      (filterMap_if_ne_nil (fun p => reTestI p content)
        (fun _ => (⟨cat, InterventionManager.getSeverityForCategory cat,
          "high"⟩ : InterventionManager.Trigger)) ps hmatch)
    exact List.ne_nil_of_mem (List.mem_flatMap.mpr ⟨(cat, ps), hmem, hb⟩)
  simpa [List.isEmpty_iff] using hne

/-- Match fractions lie in `[0, 1]`. -/
theorem frac_le_one (k n : Nat) (hk : k ≤ n) (hn : 0 < n) :
    (0 : ℚ) ≤ (k : ℚ) / (n : ℚ) ∧ (k : ℚ) / (n : ℚ) ≤ 1 := by
  constructor
  · positivity
  · rw [div_le_one (by exact_mod_cast hn)]
    exact_mod_cast hk

/-- C4 (amended theorem): for every input text the category scores and the
clamped style scores are in `[0, 1]`, and each topic score is bounded by
`3/2` (the largest topic weight), not by `1`. -/
theorem classifier_scores_in_range (text : String) :
    (∀ p ∈ ContentClassifier.detectCategories text,
      0 ≤ p.2.score ∧ p.2.score ≤ 1) ∧
    (∀ p ∈ ContentClassifier.analyzeStyle text,
      0 ≤ p.2.score ∧ p.2.score ≤ 1) ∧
    (∀ p ∈ ContentClassifier.analyzeTopics text,
      0 ≤ p.2.score ∧ p.2.score ≤ 3 / 2) := by
  refine ⟨?_, ?_, ?_⟩ <;> intro p hp
  · simp only [ContentClassifier.detectCategories, List.mem_map] at hp
    obtain ⟨c, hc, rfl⟩ := hp
    have hpos : ∀ c ∈ ContentClassifier.CATEGORIES,
        0 < c.descriptors.length ∧ 0 < c.contextMarkers.length := by decide
    obtain ⟨hD, hC⟩ := hpos c hc
    obtain ⟨h1, h2⟩ := frac_le_one _ _
      (List.length_filter_le _ c.descriptors) hD
    obtain ⟨h3, h4⟩ := frac_le_one _ _
      (List.length_filter_le _ c.contextMarkers) hC
    have ha6 := mul_le_mul_of_nonneg_right h2 (show (0 : ℚ) ≤ 0.6 by norm_num)
    have hb4 := mul_le_mul_of_nonneg_right h4 (show (0 : ℚ) ≤ 0.4 by norm_num)
    rw [one_mul] at ha6 hb4
    have ha0 := mul_nonneg h1 (show (0 : ℚ) ≤ 0.6 by norm_num)
    have hb0 := mul_nonneg h3 (show (0 : ℚ) ≤ 0.4 by norm_num)
    constructor
    · simp only
      exact add_nonneg ha0 hb0
    · simp only
      calc _ ≤ (0.6 : ℚ) + 0.4 := add_le_add ha6 hb4
        _ = 1 := by norm_num
  · simp only [ContentClassifier.analyzeStyle, List.mem_map] at hp
    obtain ⟨f, hf, rfl⟩ := hp
    have hw : ∀ f ∈ ContentClassifier.STYLE_FEATURES, 0 ≤ f.weight := by
      decide
    have hw0 := hw f hf
    constructor
    · simp only
      have : (0 : ℚ) ≤ (((f.patterns.map
          (fun p => ContentClassifier.stylePatternCount p text)).sum : ℚ) *
            f.weight / 10) := by positivity
      exact le_min this (by norm_num)
    · simp only
      exact min_le_right _ _
  · simp only [ContentClassifier.analyzeTopics, List.mem_map] at hp
    obtain ⟨t, ht, rfl⟩ := hp
    have hbounds : ∀ t ∈ ContentClassifier.TOPIC_INDICATORS,
        0 < t.keywords.length ∧ 0 ≤ t.weight ∧ t.weight ≤ 3 / 2 := by decide
    obtain ⟨hK, hw0, hw32⟩ := hbounds t ht
    obtain ⟨h1, h2⟩ := frac_le_one _ _
      (List.length_filter_le _ t.keywords) hK
    constructor
    · simp only
      positivity
    · simp only
      calc ((t.keywords.filter fun k =>
            listIncludes (k.toList.map Char.toLower) text.toList).length : ℚ) /
            (t.keywords.length : ℚ) * t.weight
          ≤ 1 * t.weight := mul_le_mul_of_nonneg_right h2 hw0
        _ = t.weight := one_mul _
        _ ≤ 3 / 2 := hw32

/-- C4 (witness): the bounds instantiated at the empty text and the first
category entry. -/
theorem classifier_scores_in_range_witness :
    c4pair ∈ ContentClassifier.detectCategories "" ∧
    0 ≤ c4pair.2.score ∧ c4pair.2.score ≤ 1 :=
  ⟨by decide, ((classifier_scores_in_range "").1 c4pair (by decide)).1,
   ((classifier_scores_in_range "").1 c4pair (by decide)).2⟩

/-- C4 (counterexample): on `c4text` every `SUPPORT_SEEKING` keyword
matches, so its topic score is `7/7 * 1.5 = 3/2 > 1`, refuting the claim
that every topic score lies in `[0, 1]`. -/
theorem topic_score_above_one :
    ¬ (∀ p ∈ (ContentClassifier.computeClassification c4text 0).topics,
        p.2.score ≤ 1) := by decide

/-- C5 (counterexample): on the depression-scenario input the assessed risk
level is neither MEDIUM nor HIGH. -/
theorem c5_not_medium_or_high :
    ¬ ((InterventionManager.assessContent c5text).riskLevel = "MEDIUM" ∨
       (InterventionManager.assessContent c5text).riskLevel = "HIGH") := by
  decide

/-- C5 (amended theorem): on the depression-scenario input no crisis
pattern triggers, the concern set is exactly a depression concern of
severity `2/4 = 1/2`, and the mean severity `1/2` maps to risk level LOW
(`0.3 ≤ 1/2 < 0.6`) with no intervention required. -/
theorem c5_depression_low :
    (InterventionManager.checkCrisisIndicators c5text).detected = false ∧
    (InterventionManager.assessContent c5text).concerns =
      [⟨"depression", 1 / 2⟩] ∧
    (InterventionManager.assessContent c5text).riskLevel = "LOW" ∧
    (InterventionManager.assessContent c5text).requiresIntervention =
      false := by
  decide

/-- C10: for empty and whitespace-only input the word and sentence counts
are zero and both averages are the non-numeric `none` (JavaScript `NaN`
from the unguarded `0 / 0`), not a numeric sentinel. -/
theorem empty_text_metrics_not_numeric :
    (ContentClassifier.classifyContent ContentClassifier.emptyClassifier
        "" "{}" 0).1.metrics = ⟨0, 0, none, none⟩ ∧
    (ContentClassifier.classifyContent ContentClassifier.emptyClassifier
        " \t  " "{}" 0).1.metrics = ⟨0, 0, none, none⟩ := by
  decide

/-- C7: a second call with identical text and options returns the very
result object cached by the first call (same timestamp, untouched state),
and after `clearCache` the result is recomputed afresh at the new call
time. -/
theorem classify_cache_hit_and_clear
    (st : ContentClassifier.ClassifierState) (text options : String)
    (t1 t2 : Nat) :
    ContentClassifier.classifyContent
        (ContentClassifier.classifyContent st text options t1).2
        text options t2 =
      ContentClassifier.classifyContent st text options t1 ∧
    (ContentClassifier.classifyContent
        (ContentClassifier.clearCache
          (ContentClassifier.classifyContent st text options t1).2)
        text options t2).1 =
      ContentClassifier.computeClassification text t2 := by
  cases h : st.cache.lookup (ContentClassifier.getCacheKey text options) with
  | some r =>
    constructor
    · simp [ContentClassifier.classifyContent, h]
    · simp [ContentClassifier.classifyContent, ContentClassifier.clearCache,
        h, List.lookup]
  | none =>
    constructor
    · simp [ContentClassifier.classifyContent, h, List.lookup]
    · simp [ContentClassifier.classifyContent, ContentClassifier.clearCache,
        h, List.lookup]

/-- C9: when two texts share their first 100 characters the cache key
collides, so the second text is classified as the first one's cached
result, without being analyzed at all. -/
theorem classify_cache_collision (t1 t2 options : String) (n1 n2 : Nat)
    (_hne : t1 ≠ t2) (htake : t1.toList.take 100 = t2.toList.take 100) :
    (ContentClassifier.classifyContent
        (ContentClassifier.classifyContent ContentClassifier.emptyClassifier
          t1 options n1).2 t2 options n2).1 =
      ContentClassifier.computeClassification t1 n1 ∧
    (ContentClassifier.classifyContent ContentClassifier.emptyClassifier
        t1 options n1).1 = ContentClassifier.computeClassification t1 n1 := by
  have hkey : ContentClassifier.getCacheKey t2 options =
      ContentClassifier.getCacheKey t1 options := by
    unfold ContentClassifier.getCacheKey
    rw [htake]
  constructor
  · simp [ContentClassifier.classifyContent,
      ContentClassifier.emptyClassifier, hkey, List.lookup]
  · simp [ContentClassifier.classifyContent,
      ContentClassifier.emptyClassifier, List.lookup]

/-- C9 (witness): the collision at two concrete 101-character texts that
differ only in their last character. -/
theorem classify_cache_collision_witness :
    (tLong1 ≠ tLong2 ∧ tLong1.toList.take 100 = tLong2.toList.take 100) ∧
    (ContentClassifier.classifyContent
        (ContentClassifier.classifyContent ContentClassifier.emptyClassifier
          tLong1 "{}" 0).2 tLong2 "{}" 1).1 =
      ContentClassifier.computeClassification tLong1 0 :=
  ⟨⟨by decide, by decide⟩,
   (classify_cache_collision tLong1 tLong2 "{}" 0 1 (by decide)
     (by decide)).1⟩

/-- C2: any content matching an active first-person present-tense
suicidal-intent pattern with no matching context-exclusion pattern is
assessed as CRISIS with mandatory intervention. -/
theorem suicide_no_context_yields_crisis (content : String)
    (hmatch : InterventionManager.activeSuicideIntentPatterns.any
      (fun p => reTestI p content) = true)
    (hctx : InterventionManager.hasExcludingContext content = false) :
    (InterventionManager.assessContent content).riskLevel = "CRISIS" ∧
    (InterventionManager.assessContent content).requiresIntervention =
      true := by
  have hmem : ("activeSuicideIntent",
      InterventionManager.activeSuicideIntentPatterns) ∈
      InterventionManager.crisisPatterns :=
    List.mem_cons_of_mem _ (List.mem_cons_self _ _)
  have hdet := crisis_detected_of_family_match content "activeSuicideIntent"
    InterventionManager.activeSuicideIntentPatterns hmem hmatch hctx
  unfold InterventionManager.assessContent
  simp [hdet]

/-- C2 (witness): the property at the concrete phrase
`"I want to kill myself"`. -/
theorem suicide_no_context_yields_crisis_witness :
    (InterventionManager.activeSuicideIntentPatterns.any
        (fun p => reTestI p c2text) = true ∧
      InterventionManager.hasExcludingContext c2text = false) ∧
    ((InterventionManager.assessContent c2text).riskLevel = "CRISIS" ∧
      (InterventionManager.assessContent c2text).requiresIntervention =
        true) :=
  ⟨⟨by decide, by decide⟩,
   suicide_no_context_yields_crisis c2text (by decide) (by decide)⟩

/-- C1 (code-bug evaluation): the severity map of `getSeverityForCategory`
is keyed by `suicide`, `selfHarm`, `overdoseIntent`, `violentThreats`, but
`checkCrisisIndicators` looks severities up under the pattern-table names
`activeSuicideIntent`, `activeSelfHarmIntent`, `activeOverdoseIntent`,
`directViolentThreats`, so those lookups fall through to the default `0.5`.
On `c1text` a suicidal-intent pattern matches together with a medical
exclusion, `0.5` fails the raised `0.9` threshold, and the assessment comes
out NONE instead of the CRISIS the claim requires. -/
theorem severity_lookup_mismatch_suppresses_crisis :
    InterventionManager.getSeverityForCategory "activeSuicideIntent" =
      1 / 2 ∧
    InterventionManager.getSeverityForCategory "activeSelfHarmIntent" =
      1 / 2 ∧
    InterventionManager.getSeverityForCategory "activeOverdoseIntent" =
      1 / 2 ∧
    InterventionManager.getSeverityForCategory "directViolentThreats" =
      1 / 2 ∧
    InterventionManager.activeSuicideIntentPatterns.any
      (fun p => reTestI p c1text) = true ∧
    InterventionManager.hasExcludingContext c1text = true ∧
    (InterventionManager.assessContent c1text).riskLevel = "NONE" ∧
    (InterventionManager.assessContent c1text).requiresIntervention =
      false := by
  decide

/-- C3 (code-bug evaluation): the 150 s timer callback tests the
`isAnalyzing` binding captured at submission time, which is `false` when
an analysis is submitted from the idle state; when the backend stays
silent, the timer fires without effect, so no timeout error result is ever
produced, `isAnalyzing` stays `true`, and the session's progress and
completion callbacks survive in the APIService registries. -/
theorem stale_timeout_never_fires :
    c3submission.2.capturedIsAnalyzing = false ∧
    AppContainer.timeoutFires c3submission.1 c3submission.2 =
      c3submission.1 ∧
    (AppContainer.timeoutFires c3submission.1
        c3submission.2).app.isAnalyzing = true ∧
    (AppContainer.timeoutFires c3submission.1
        c3submission.2).app.analysisResults = none ∧
    "sess-1" ∈ (AppContainer.timeoutFires c3submission.1
        c3submission.2).api.progressCallbacks ∧
    "sess-1" ∈ (AppContainer.timeoutFires c3submission.1
        c3submission.2).api.analysisCallbacks := by
  decide

/-- C6: a completion or error event carrying a session id different from
the tracked one leaves the whole component state (results, analyzing flag,
progress, status message, session id, timer id) unchanged. -/
theorem foreign_session_events_ignored (sys : AppContainer.SystemState)
    (sid ev results message details : String)
    (htracked : sys.app.currentSessionId = some sid) (hne : ev ≠ sid) :
    (AppContainer.deliverComplete sys ev results).app = sys.app ∧
    (AppContainer.deliverError sys ev message details).app = sys.app := by
  unfold AppContainer.deliverComplete AppContainer.deliverError
    AppContainer.handleAnalysisComplete AppContainer.handleAnalysisError
  rw [htracked]
  simp [hne]

/-- C6 (witness): a foreign completion and error event against a concrete
mid-analysis state. -/
theorem foreign_session_events_ignored_witness :
    (c6sys.app.currentSessionId = some "sess-a" ∧ "sess-b" ≠ "sess-a") ∧
    ((AppContainer.deliverComplete c6sys "sess-b" "r").app = c6sys.app ∧
     (AppContainer.deliverError c6sys "sess-b" "e" "d").app = c6sys.app) :=
  ⟨⟨by decide, by decide⟩,
   foreign_session_events_ignored c6sys "sess-a" "sess-b" "r" "e" "d"
     (by decide) (by decide)⟩

/-- One unrolling of the retry loop below the attempt cap. -/
theorem requestLoop_step (outcomes : Nat → APIService.ReqOutcome)
    (d m a : Nat) (h : a < m) :
    APIService.requestLoop outcomes d m a =
      match outcomes a with
      | .ok v => (some (.ok v), [])
      | .err e =>
        if !(e.isRetryable) then (some (.error e), [])
        else if m ≤ a + 1 then (some (.error e), [])
        else
          ((APIService.requestLoop outcomes d m (a + 1)).1,
           d * 2 ^ a :: (APIService.requestLoop outcomes d m (a + 1)).2) := by
  rw [APIService.requestLoop]
  simp [h]

/-- C8 (amended theorem): through `APIService.request` (defaults
`retryDelay = 1000`, `retryAttempts = 3`), a non-retryable error propagates
immediately with no backoff sleep; retryable errors are retried up to three
total attempts with delays `1000·2^(k-1)` before the k-th retry (1000 ms,
then 2000 ms); and retryability is exactly: 4xx only for 408/429, 5xx and
absent/zero status always. -/
theorem request_retry_policy (outcomes : Nat → APIService.ReqOutcome)
    (e0 e1 : APIError) (v : String) :
    (outcomes 0 = .err e0 → e0.isRetryable = false →
      APIService.request outcomes = (some (.error e0), [])) ∧
    (outcomes 0 = .err e0 → e0.isRetryable = true → outcomes 1 = .ok v →
      APIService.request outcomes = (some (.ok v), [1000])) ∧
    (∀ e2, outcomes 0 = .err e0 → e0.isRetryable = true →
      outcomes 1 = .err e1 → e1.isRetryable = true → outcomes 2 = .err e2 →
      APIService.request outcomes = (some (.error e2), [1000, 2000])) ∧
    (∀ m s, 400 ≤ s → s < 500 → s ≠ 408 → s ≠ 429 →
      (⟨m, some s⟩ : APIError).isRetryable = false) ∧
    (∀ m s, 500 ≤ s → (⟨m, some s⟩ : APIError).isRetryable = true) ∧
    (∀ m, (⟨m, some 0⟩ : APIError).isRetryable = true ∧
      (⟨m, none⟩ : APIError).isRetryable = true ∧
      (⟨m, some 408⟩ : APIError).isRetryable = true ∧
      (⟨m, some 429⟩ : APIError).isRetryable = true) := by
  refine ⟨?_, ?_, ?_, ?_, ?_, ?_⟩
  · intro h0 hr0
    unfold APIService.request
    rw [requestLoop_step _ _ _ _ (by norm_num), h0]
    simp [hr0]
  · intro h0 hr0 h1
    have s1 : APIService.requestLoop outcomes 1000 3 1 =
        (some (.ok v), []) := by
      rw [requestLoop_step _ _ _ _ (by norm_num), h1]
    unfold APIService.request
    rw [requestLoop_step _ _ _ _ (by norm_num), h0]
    simp [hr0, s1]
  · intro e2 h0 hr0 h1 hr1 h2
    have s2 : APIService.requestLoop outcomes 1000 3 2 =
        (some (.error e2), []) := by
      rw [requestLoop_step _ _ _ _ (by norm_num), h2]
      cases hre2 : e2.isRetryable <;> simp [hre2]
    have s1 : APIService.requestLoop outcomes 1000 3 1 =
        (some (.error e2), [2000]) := by
      rw [requestLoop_step _ _ _ _ (by norm_num), h1]
      simp [hr1, s2]
    unfold APIService.request
    rw [requestLoop_step _ _ _ _ (by norm_num), h0]
    simp [hr0, s1]
  · intro m s h4 h5 h8 h9
    simp only [APIError.isRetryable]
    have d1 : decide (400 ≤ s) = true := by simp [h4]
    have d2 : decide (s < 500) = true := by simp [h5]
    simp [d1, d2, beq_iff_eq, h8, h9]
  · intro m s h5
    simp only [APIError.isRetryable]
    have d1 : decide (s < 500) = false := by
      simp only [decide_eq_false_iff_not]
      omega
    have d2 : decide (500 ≤ s) = true := by simp [h5]
    simp [d1, d2]
  · intro m
    refine ⟨?_, ?_, ?_, ?_⟩ <;> simp [APIError.isRetryable]

/-- C8 (witness): a 404 propagates with no retries and no delays; a
persistent 500 is retried twice, with backoff sleeps of 1000 ms and
2000 ms, before the third failure propagates. -/
theorem request_retry_policy_witness :
    APIService.request out404 = (some (.error ⟨"HTTP 404", some 404⟩), []) ∧
    APIService.request out500 =
      (some (.error ⟨"HTTP 500", some 500⟩), [1000, 2000]) :=
  ⟨(request_retry_policy out404 ⟨"HTTP 404", some 404⟩
      ⟨"HTTP 404", some 404⟩ "").1 rfl (by decide),
   ((request_retry_policy out500 ⟨"HTTP 500", some 500⟩
      ⟨"HTTP 500", some 500⟩ "").2.2.1) ⟨"HTTP 500", some 500⟩ rfl
     (by decide) rfl (by decide) rfl⟩

/-- C8 (counterexample): the API-key validation request is an HTTP request
issued by the API service through a bare `fetch`; a 500 response — a
retryable class under the claim — propagates immediately as an error, with
no retry attempts and no backoff. -/
theorem validation_request_not_retried :
    APIService.validateApiKey (some (500, "Internal Server Error")) =
      .error ⟨"Internal Server Error", some 500⟩ ∧
    (⟨"Internal Server Error", some 500⟩ : APIError).isRetryable = true :=
  ⟨rfl, by decide⟩

end ConversaTrait
